import Mathlib

/-!
Verification of the choice-story analytics layer.

The wrapper hooks are embedded from src/src/app/hooks/useStoryAnalytics.ts.
Hook callbacks close over `storyId : string | null` and `userId : string | null`
(modelled as Option String) and guard with JavaScript truthiness, under which
both null and the empty string are falsy; `truthyStr` captures this.  A hook
callback is modelled as a pure function from its arguments and the mutable ref
cell state to the new ref state together with the list of
FirebaseAnalyticsService methods it invokes (a `TrackerCall` list); a callback
that invokes nothing returns the unchanged state and an empty list.
-/

namespace ChoiceStory

/-- JavaScript truthiness of a `string | null` value: null and the empty
string are falsy, every other string is truthy. -/
def truthyStr : Option String → Bool
  | none => false
  | some s => !s.isEmpty

/-- One invocation of a FirebaseAnalyticsService method, as performed by the
wrapper hooks.  Costs are modelled as exact rationals. -/
inductive TrackerCall where
  | trackReadingStoryStart (storyId userId : String) (storyTitle : Option String)
  | trackStoryPageView (storyId : String) (pageNum : Int) (pageType : String)
  | trackReadingStoryFinish (storyId userId : String) (storyTitle : Option String)
  | trackReadingStorySelectedPath (storyId userId pathType : String) (pageNum : Int)
      (storyTitle : Option String)
  | startStoryCreationSession (userId kidId problemDescription : String)
  | startTitleGeneration (userId kidId : String)
  | trackTitleGeneration (userId kidId : String) (titlesCount : Int) (cost : Option Rat)
  | startTextGeneration (userId kidId : String) (storyTitle : Option String)
  | trackTextGeneration (userId kidId : String) (pagesCount : Int) (cost : Option Rat)
      (storyTitle : Option String)
  | trackStoryCreationComplete (storyId userId kidId storyTitle : String)
  | trackStoryCreationError (userId kidId errorMessage : String)
  | startImageGeneration (userId storyId pageType : String) (isRegeneration : Bool)
      (storyTitle : Option String)
  | trackImageGeneration (userId storyId pageType : String) (cost : Option Rat)
      (isRegeneration : Bool) (storyTitle : Option String) (kidId : Option String)
  | trackImageGenerationError (userId storyId pageType errorMessage : String)
      (isRegeneration : Bool)
  deriving DecidableEq

/-- The two ref cells of useStoryReadingAnalytics: sessionStartedRef and
storyTitleRef. -/
structure ReadingHookState where
  sessionStarted : Bool
  storyTitleRef : Option String
  deriving DecidableEq

/-- trackReadingStart (useStoryAnalytics.ts lines 35-40): starts the reading
session when storyId and userId are truthy and the sessionStarted flag is not
yet set; otherwise does nothing. -/
def trackReadingStart (storyId userId : Option String) (s : ReadingHookState) :
    ReadingHookState × List TrackerCall :=
  if truthyStr storyId && truthyStr userId && !s.sessionStarted then
    ({ s with sessionStarted := true },
     [.trackReadingStoryStart (storyId.getD "") (userId.getD "") s.storyTitleRef])
  else
    (s, [])

/-- trackPageView (useStoryAnalytics.ts lines 43-56): when storyId is truthy,
emits the page view; additionally, when pageType is "good" or "bad", the
session has been started and userId is truthy, finishes the reading session
and clears the sessionStarted flag. -/
def trackPageView (storyId userId : Option String) (pageNum : Int) (pageType : String)
    (s : ReadingHookState) : ReadingHookState × List TrackerCall :=
  if truthyStr storyId then
    let pv := TrackerCall.trackStoryPageView (storyId.getD "") pageNum pageType
    if (pageType = "good" || pageType = "bad") && s.sessionStarted then
      if truthyStr userId then
        ({ s with sessionStarted := false },
         [pv, .trackReadingStoryFinish (storyId.getD "") (userId.getD "") s.storyTitleRef])
      else
        (s, [pv])
    else
      (s, [pv])
  else
    (s, [])

/-- trackSelectedPath (useStoryAnalytics.ts lines 59-69): when storyId and
userId are truthy, emits the selected-path call; it reads only storyTitleRef
and never touches the sessionStarted flag. -/
def trackSelectedPath (storyId userId : Option String) (pathType : String) (pageNum : Int)
    (s : ReadingHookState) : List TrackerCall :=
  if truthyStr storyId && truthyStr userId then
    [.trackReadingStorySelectedPath (storyId.getD "") (userId.getD "") pathType pageNum
       s.storyTitleRef]
  else
    []

/-- trackStoryFinish (useStoryAnalytics.ts lines 72-77): when storyId and
userId are truthy and the sessionStarted flag is set, finishes the reading
session and clears the flag; otherwise does nothing. -/
def trackStoryFinish (storyId userId : Option String) (s : ReadingHookState) :
    ReadingHookState × List TrackerCall :=
  if truthyStr storyId && truthyStr userId && s.sessionStarted then
    ({ s with sessionStarted := false },
     [.trackReadingStoryFinish (storyId.getD "") (userId.getD "") s.storyTitleRef])
  else
    (s, [])

/-- trackCreationStart (useStoryAnalytics.ts lines 92-96): forwards to
startStoryCreationSession when userId and kidId are truthy. -/
def trackCreationStart (userId kidId : Option String) (problemDescription : String) :
    List TrackerCall :=
  if truthyStr userId && truthyStr kidId then
    [.startStoryCreationSession (userId.getD "") (kidId.getD "") problemDescription]
  else
    []

/-- trackTitleGenerationStart (useStoryAnalytics.ts lines 99-103). -/
def trackTitleGenerationStart (userId kidId : Option String) : List TrackerCall :=
  if truthyStr userId && truthyStr kidId then
    [.startTitleGeneration (userId.getD "") (kidId.getD "")]
  else
    []

/-- trackTitleGenerationComplete (useStoryAnalytics.ts lines 105-109). -/
def trackTitleGenerationComplete (userId kidId : Option String) (titlesCount : Int)
    (cost : Option Rat) : List TrackerCall :=
  if truthyStr userId && truthyStr kidId then
    [.trackTitleGeneration (userId.getD "") (kidId.getD "") titlesCount cost]
  else
    []

/-- trackStoryTextGenerationStart (useStoryAnalytics.ts lines 112-116). -/
def trackStoryTextGenerationStart (userId kidId : Option String)
    (storyTitle : Option String) : List TrackerCall :=
  if truthyStr userId && truthyStr kidId then
    [.startTextGeneration (userId.getD "") (kidId.getD "") storyTitle]
  else
    []

/-- trackStoryTextGenerationComplete (useStoryAnalytics.ts lines 118-122). -/
def trackStoryTextGenerationComplete (userId kidId : Option String) (pagesCount : Int)
    (cost : Option Rat) (storyTitle : Option String) : List TrackerCall :=
  if truthyStr userId && truthyStr kidId then
    [.trackTextGeneration (userId.getD "") (kidId.getD "") pagesCount cost storyTitle]
  else
    []

/-- trackCreationComplete (useStoryAnalytics.ts lines 125-129). -/
def trackCreationComplete (userId kidId : Option String) (storyId storyTitle : String) :
    List TrackerCall :=
  if truthyStr userId && truthyStr kidId then
    [.trackStoryCreationComplete storyId (userId.getD "") (kidId.getD "") storyTitle]
  else
    []

/-- trackCreationError (useStoryAnalytics.ts lines 132-136). -/
def trackCreationError (userId kidId : Option String) (errorMessage : String) :
    List TrackerCall :=
  if truthyStr userId && truthyStr kidId then
    [.trackStoryCreationError (userId.getD "") (kidId.getD "") errorMessage]
  else
    []

/-- trackImageGenerationStart (useStoryAnalytics.ts lines 159-163): guarded by
truthy userId and storyId; storyTitle is forwarded unchecked. -/
def trackImageGenerationStart (userId storyId : Option String) (pageType : String)
    (isRegeneration : Bool) (storyTitle : Option String) : List TrackerCall :=
  if truthyStr userId && truthyStr storyId then
    [.startImageGeneration (userId.getD "") (storyId.getD "") pageType isRegeneration
       storyTitle]
  else
    []

/-- trackImageGenerationComplete (useStoryAnalytics.ts lines 165-181): guarded
by truthy userId and storyId; storyTitle and the optional kidId are forwarded
unchecked. -/
def trackImageGenerationComplete (userId storyId : Option String) (pageType : String)
    (cost : Option Rat) (isRegeneration : Bool) (storyTitle : Option String)
    (kidId : Option String) : List TrackerCall :=
  if truthyStr userId && truthyStr storyId then
    [.trackImageGeneration (userId.getD "") (storyId.getD "") pageType cost isRegeneration
       storyTitle kidId]
  else
    []

/-- trackImageGenerationError (useStoryAnalytics.ts lines 183-197). -/
def trackImageGenerationError (userId storyId : Option String) (pageType errorMessage : String)
    (isRegeneration : Bool) : List TrackerCall :=
  if truthyStr userId && truthyStr storyId then
    [.trackImageGenerationError (userId.getD "") (storyId.getD "") pageType errorMessage
       isRegeneration]
  else
    []

/-!
The FirebaseAnalyticsService itself is not among the visible sources; only
its callers are.  The definitions below are therefore modelled from the
specification of the Analytics Session Tracker (spec sections 3, 4.1 and 8):
a registry of creation sessions keyed by (userId, kidId) and reading sessions
keyed by (storyId, userId), with millisecond timestamps passed in explicitly
and emitted events represented by the `Event` type.
-/

/-- Modelled from the spec: a CreationSession holds its start timestamp
(ms since epoch) and the three cost buckets (title, text, image), each
defaulting to zero. -/
structure CreationSession where
  startTime : Int
  titleCost : Rat
  textCost : Rat
  imageCost : Rat
  deriving DecidableEq

/-- Modelled from the spec: a ReadingSession holds its start timestamp. -/
structure ReadingSession where
  startTime : Int
  deriving DecidableEq

/-- Modelled from the spec: the in-memory session registry of the tracker,
with creation sessions keyed by (userId, kidId) and reading sessions keyed by
(storyId, userId). -/
structure ServiceState where
  creationSessions : String × String → Option CreationSession
  readingSessions : String × String → Option ReadingSession

/-- The registry with no active sessions. -/
def emptyServiceState : ServiceState :=
  { creationSessions := fun _ => none, readingSessions := fun _ => none }

/-- Events emitted to the analytics sink, restricted to the fields the
properties below talk about. -/
inductive Event where
  | storyCreationStart (userId kidId : String)
  | storyCreationComplete (storyId userId kidId : String) (durationMs : Int)
  | storyCreationCost (userId kidId : String) (titleCost textCost imageCost totalCost : Rat)
  | readingStoryStart (storyId userId : String)
  | readingStoryFinish (storyId userId : String) (durationMs : Int)
  deriving DecidableEq

/-- Modelled from the spec (section 4.1): startCreationSession creates a
CreationSession with start = now and all cost buckets zero, overwriting any
existing session for the same (userId, kidId) key, and emits
story_creation_start. -/
def startCreationSession (now : Int) (userId kidId : String) (st : ServiceState) :
    ServiceState × List Event :=
  ({ st with creationSessions := fun k =>
      if k = (userId, kidId) then some ⟨now, 0, 0, 0⟩ else st.creationSessions k },
   [.storyCreationStart userId kidId])

/-- Modelled from the spec (section 4.1): the effect of completeTitleGeneration
on the enclosing CreationSession - it adds cost (default 0) to the title-cost
bucket if a session exists for (userId, kidId), and drops the cost otherwise.
The title_generation and openai_cost events it also emits carry no fields the
properties below mention, so they are left out of the Event type. -/
def addTitleGenerationCost (userId kidId : String) (cost : Option Rat)
    (st : ServiceState) : ServiceState :=
  match st.creationSessions (userId, kidId) with
  | some s =>
      { st with creationSessions := fun k =>
          if k = (userId, kidId) then some { s with titleCost := s.titleCost + cost.getD 0 }
          else st.creationSessions k }
  | none => st

/-- Modelled from the spec (section 4.1): the effect of completeTextGeneration
on the text-cost bucket, symmetric to title generation. -/
def addTextGenerationCost (userId kidId : String) (cost : Option Rat)
    (st : ServiceState) : ServiceState :=
  match st.creationSessions (userId, kidId) with
  | some s =>
      { st with creationSessions := fun k =>
          if k = (userId, kidId) then some { s with textCost := s.textCost + cost.getD 0 }
          else st.creationSessions k }
  | none => st

/-- Modelled from the spec (section 4.1): the cross-session folding performed
by completeImageGeneration when a kidId is supplied - the image cost (default
0) is added to the image-cost bucket of the CreationSession for
(userId, kidId) when one exists, and dropped otherwise. -/
def addImageGenerationCost (userId kidId : String) (cost : Option Rat)
    (st : ServiceState) : ServiceState :=
  match st.creationSessions (userId, kidId) with
  | some s =>
      { st with creationSessions := fun k =>
          if k = (userId, kidId) then some { s with imageCost := s.imageCost + cost.getD 0 }
          else st.creationSessions k }
  | none => st

/-- Modelled from the spec (sections 3, 4.1): completeCreationSession computes
the total duration from the session start and the total cost as the sum of the
three buckets, emits story_creation_complete and story_creation_cost, and
removes the session.  When no session exists for the key it does not fail:
duration is reported as 0 and the buckets as zero. -/
def completeCreationSession (now : Int) (storyId userId kidId : String)
    (st : ServiceState) : ServiceState × List Event :=
  let removed : ServiceState :=
    { st with creationSessions := fun k =>
        if k = (userId, kidId) then none else st.creationSessions k }
  match st.creationSessions (userId, kidId) with
  | some s =>
      (removed,
       [.storyCreationComplete storyId userId kidId (now - s.startTime),
        .storyCreationCost userId kidId s.titleCost s.textCost s.imageCost
          (s.titleCost + s.textCost + s.imageCost)])
  | none =>
      (removed,
       [.storyCreationComplete storyId userId kidId 0,
        .storyCreationCost userId kidId 0 0 0 0])

/-- Modelled from the spec (section 4.1): startReadingSession creates a
ReadingSession with start = now, overwriting any existing one for the key, and
emits reading_story_start. -/
def startReadingSession (now : Int) (storyId userId : String) (st : ServiceState) :
    ServiceState × List Event :=
  ({ st with readingSessions := fun k =>
      if k = (storyId, userId) then some ⟨now⟩ else st.readingSessions k },
   [.readingStoryStart storyId userId])

/-- Modelled from the spec (sections 3, 4.1): finishReadingSession computes the
total duration from the session start, emits reading_story_finish and removes
the session; for an absent key it is a no-op that emits nothing. -/
def finishReadingSession (now : Int) (storyId userId : String) (st : ServiceState) :
    ServiceState × List Event :=
  match st.readingSessions (storyId, userId) with
  | some s =>
      ({ st with readingSessions := fun k =>
          if k = (storyId, userId) then none else st.readingSessions k },
       [.readingStoryFinish storyId userId (now - s.startTime)])
  | none => (st, [])

/-- Interpret a single reading-related tracker call against the spec-modelled
service; calls outside the reading lifecycle leave the state unchanged. -/
def runReadingCall (now : Int) (st : ServiceState) : TrackerCall → ServiceState × List Event
  | .trackReadingStoryStart sid uid _ => startReadingSession now sid uid st
  | .trackReadingStoryFinish sid uid _ => finishReadingSession now sid uid st
  | _ => (st, [])

/-- Interpret a list of tracker calls in order, concatenating the emitted
events. -/
def runReadingCalls (now : Int) (st : ServiceState) : List TrackerCall → ServiceState × List Event
  | [] => (st, [])
  | c :: cs =>
      let out := runReadingCall now st c
      let rest := runReadingCalls now out.1 cs
      (rest.1, out.2 ++ rest.2)

/-- Counts the reading_story_finish events in a list. -/
def countReadingFinish (es : List Event) : Nat :=
  (es.filter fun e => match e with | .readingStoryFinish _ _ _ => true | _ => false).length

/-- Counts the trackReadingStoryFinish invocations in a call list. -/
def countFinishCalls (cs : List TrackerCall) : Nat :=
  (cs.filter fun c =>
    match c with | .trackReadingStoryFinish _ _ _ => true | _ => false).length

/-!
Embedding of the useUserData effect (src/unnamed/part_000, lines 35-49).
kidsLastFetched is `number | null` in the store (none here when null); the
JavaScript guard `!kidsLastFetched` is true when the value is null or 0.
-/

/-- The shouldFetchKids condition of the useUserData effect:
userData?.uid && (!kidsLastFetched || Date.now() - kidsLastFetched > 5 * 60 * 1000).
userDataUid is none when userData is null or has no uid. -/
def shouldFetchKids (userDataUid : Option String) (kidsLastFetched : Option Int)
    (now : Int) : Bool :=
  truthyStr userDataUid &&
    (match kidsLastFetched with
     | none => true
     | some t => t == 0 || decide (now - t > 5 * 60 * 1000))

/-- The useUserData auto-fetch effect: returns (fetchUserData invoked,
fetchKids invoked).  userDataPresent models `userData` being non-null;
userDataUid its uid field. -/
def useUserDataEffect (firebaseUser userDataPresent isFetchingUserData : Bool)
    (userDataUid : Option String) (kidsLastFetched : Option Int) (now : Int) :
    Bool × Bool :=
  (firebaseUser && !userDataPresent && !isFetchingUserData,
   shouldFetchKids userDataUid kidsLastFetched now)

/-- C7's sentence, rendered literally for comparison with the code: fetch
exactly when userData.uid is present (non-null) and either no previous fetch
timestamp exists or more than 5 * 60 * 1000 ms have elapsed. -/
def claimShouldFetchKids (userDataUid : Option String) (kidsLastFetched : Option Int)
    (now : Int) : Bool :=
  userDataUid.isSome &&
    (match kidsLastFetched with
     | none => true
     | some t => decide (now - t > 5 * 60 * 1000))

/-!
Embedding of verify-environment.js (lines 14-36).
-/

/-- nodeEnv = process.env.NODE_ENV || 'development'; the environment variable
is none when unset, and the empty string is falsy. -/
def nodeEnvValue (nodeEnvVar : Option String) : String :=
  match nodeEnvVar with
  | none => "development"
  | some s => if s.isEmpty then "development" else s

/-- firebaseEnv = nodeEnv === 'production' ? 'production' : 'development'. -/
def firebaseEnv (nodeEnvVar : Option String) : String :=
  if nodeEnvValue nodeEnvVar = "production" then "production" else "development"

/-- The environment-suffixed collection names the script reports. -/
def firebaseCollections (nodeEnvVar : Option String) : List String :=
  ["accounts_" ++ firebaseEnv nodeEnvVar,
   "users_" ++ firebaseEnv nodeEnvVar,
   "stories_gen_" ++ firebaseEnv nodeEnvVar]

/-!
Embedding of QuickGenerateDialog.handleSubmit
(src/src/app/features/story/components/quick-generator/QuickGenerateDialog.tsx,
lines 41-116).  The three input fields, the dialog-open flag and the
parent-held generating flag form the state; toasts and remote calls are
recorded as effects in order.  The remote generateFullStory outcome is an
explicit parameter (ok result or thrown error message); the follow-up
getStoryById fetch and the onStoryCreated callback fall inside the ok branch
and are recorded as effects without further branching on the fetch response.
-/

/-- JavaScript String.prototype.trim: strips whitespace from both ends. -/
def jsTrim (s : String) : String :=
  String.mk (((s.data.dropWhile Char.isWhitespace).reverse.dropWhile
    Char.isWhitespace).reverse)

structure DialogState where
  problem : String
  advantages : String
  disadvantages : String
  isOpen : Bool
  isGenerating : Bool
  deriving DecidableEq

structure GenerateResult where
  storyId : String
  title : String
  deriving DecidableEq

inductive SubmitEffect where
  | toastDestructive (title : String)
  | toastInfo (title : String)
  | apiGenerateFullStory (userId kidId problemDescription : String)
      (advantages disadvantages : Option String) (environment : String)
  | fetchStoryById (storyId : String)
  | toastSuccess (title : String)
  deriving DecidableEq

/-- handleSubmit: an empty or whitespace-only problem shows the destructive
input-required toast and returns at once; otherwise the dialog closes, the
generating flag is raised, the start toast shows, the API is called, and on
success the inputs reset and the flag clears, while on error only the flag
clears and the failure toast shows. -/
def handleSubmit (userId kidId environment : String) (st : DialogState)
    (apiOutcome : Except String GenerateResult) : DialogState × List SubmitEffect :=
  if (jsTrim st.problem).isEmpty then
    (st, [.toastDestructive "inputRequired"])
  else
    let submitted := { st with isOpen := false, isGenerating := true }
    let apiCall := SubmitEffect.apiGenerateFullStory userId kidId st.problem
      (if st.advantages.isEmpty then none else some st.advantages)
      (if st.disadvantages.isEmpty then none else some st.disadvantages)
      environment
    match apiOutcome with
    | .ok r =>
        ({ submitted with
            problem := "", advantages := "", disadvantages := "", isGenerating := false },
         [.toastInfo "Story Generation Started", apiCall, .fetchStoryById r.storyId,
          .toastSuccess r.title])
    | .error _ =>
        ({ submitted with isGenerating := false },
         [.toastInfo "Story Generation Started", apiCall,
          .toastDestructive "Generation Failed"])

/-!
Theorems.
-/

/-- C3: while the sessionStarted flag is set, a further trackReadingStart call
is ignored - it invokes no tracker operation and leaves the hook state
unchanged, so the reading session is started at most once per hook instance
until it is finished. -/
theorem trackReadingStart_second_call_ignored (storyId userId : Option String)
    (s : ReadingHookState) (h : s.sessionStarted = true) :
    trackReadingStart storyId userId s = (s, []) := by
  simp [trackReadingStart, h]

/-- Witness for C3 at a concrete started hook state. -/
theorem trackReadingStart_second_call_ignored_witness :
    (⟨true, none⟩ : ReadingHookState).sessionStarted = true ∧
    trackReadingStart (some ("story1")) (some ("user1")) ⟨true, none⟩ =
      (⟨true, none⟩, []) :=
  ⟨rfl, trackReadingStart_second_call_ignored (some ("story1")) (some ("user1"))
    ⟨true, none⟩ rfl⟩

/-- C5: every wrapper-hook operation with a required identifier missing (null)
returns without invoking any tracker operation, so no event is emitted; the
stateful reading-hook callbacks additionally leave their ref state unchanged.
For trackPageView the required identifier is storyId alone, matching its
guard in the source. -/
theorem wrapper_skips_on_null_ids
    (uid kid sid : Option String) (s : ReadingHookState)
    (pd pt err ti sid2 : String) (n cnt pages : Int) (c : Option Rat)
    (t : Option String) (reg : Bool) :
    trackReadingStart none uid s = (s, []) ∧
    trackReadingStart sid none s = (s, []) ∧
    trackPageView none uid n pt s = (s, []) ∧
    trackSelectedPath none uid pt n s = [] ∧
    trackSelectedPath sid none pt n s = [] ∧
    trackStoryFinish none uid s = (s, []) ∧
    trackStoryFinish sid none s = (s, []) ∧
    trackCreationStart none kid pd = [] ∧
    trackCreationStart uid none pd = [] ∧
    trackTitleGenerationStart none kid = [] ∧
    trackTitleGenerationStart uid none = [] ∧
    trackTitleGenerationComplete none kid cnt c = [] ∧
    trackTitleGenerationComplete uid none cnt c = [] ∧
    trackStoryTextGenerationStart none kid t = [] ∧
    trackStoryTextGenerationStart uid none t = [] ∧
    trackStoryTextGenerationComplete none kid pages c t = [] ∧
    trackStoryTextGenerationComplete uid none pages c t = [] ∧
    trackCreationComplete none kid sid2 ti = [] ∧
    trackCreationComplete uid none sid2 ti = [] ∧
    trackCreationError none kid err = [] ∧
    trackCreationError uid none err = [] ∧
    trackImageGenerationStart none sid pt reg t = [] ∧
    trackImageGenerationStart uid none pt reg t = [] ∧
    trackImageGenerationComplete none sid pt c reg t kid = [] ∧
    trackImageGenerationComplete uid none pt c reg t kid = [] ∧
    trackImageGenerationError none sid pt err reg = [] ∧
    trackImageGenerationError uid none pt err reg = [] := by
  simp [trackReadingStart, trackPageView, trackSelectedPath, trackStoryFinish,
        trackCreationStart, trackTitleGenerationStart, trackTitleGenerationComplete,
        trackStoryTextGenerationStart, trackStoryTextGenerationComplete,
        trackCreationComplete, trackCreationError, trackImageGenerationStart,
        trackImageGenerationComplete, trackImageGenerationError, truthyStr]

/-- C6 counterexample: the empty string is non-null, yet trackSelectedPath
invokes nothing when storyId or userId is the empty string, because the
source guards with JavaScript truthiness, not a null check. -/
theorem trackSelectedPath_nonNull_not_sufficient :
    trackSelectedPath (some ("")) (some ("user1")) ("good") 1 ⟨false, none⟩ = [] ∧
    trackSelectedPath (some ("story1")) (some ("")) ("good") 1 ⟨false, none⟩ = [] :=
  ⟨rfl, rfl⟩

/-- C6 amended: for every non-null and non-empty storyId and userId,
trackSelectedPath immediately emits exactly the selected-path tracker call,
for every hook state - in particular independently of the sessionStarted
flag, which it never reads or modifies. -/
theorem trackSelectedPath_emits_immediately (sid uid pathType : String) (pageNum : Int)
    (s : ReadingHookState) (hsid : sid.isEmpty = false) (huid : uid.isEmpty = false) :
    trackSelectedPath (some sid) (some uid) pathType pageNum s =
      [.trackReadingStorySelectedPath sid uid pathType pageNum s.storyTitleRef] := by
  simp [trackSelectedPath, truthyStr, hsid, huid]

/-- Witness for the amended C6 at concrete identifiers. -/
theorem trackSelectedPath_emits_immediately_witness :
    ("story1" : String).isEmpty = false ∧ ("user1" : String).isEmpty = false ∧
    trackSelectedPath (some ("story1")) (some ("user1")) ("good") 2
        ⟨false, some ("T")⟩ =
      [.trackReadingStorySelectedPath ("story1") ("user1") ("good") 2 (some ("T"))] :=
  ⟨rfl, rfl, trackSelectedPath_emits_immediately ("story1") ("user1") ("good") 2
    ⟨false, some ("T")⟩ rfl rfl⟩

/-- C9 counterexample: with a non-null but empty storyId the ending page view
invokes nothing at all, and with a non-null but empty userId it emits the page
view without finishing the session or clearing the flag - the source guards
with JavaScript truthiness, not a null check. -/
theorem trackPageView_nonNull_not_sufficient :
    trackPageView (some ("")) (some ("user1")) 3 ("good") ⟨true, none⟩ =
      (⟨true, none⟩, []) ∧
    trackPageView (some ("story1")) (some ("")) 3 ("good") ⟨true, none⟩ =
      (⟨true, none⟩, [.trackStoryPageView ("story1") 3 ("good")]) :=
  ⟨rfl, rfl⟩

/-- C9 amended: with non-null, non-empty storyId and userId and the session
started, a trackPageView call with pageType good or bad emits the page view
and then finishes the reading session, clearing the sessionStarted flag, so a
subsequent explicit trackStoryFinish is a no-op; for any other pageType,
trackPageView never emits a finish call and never changes the hook state. -/
theorem trackPageView_ending_finishes_session (sid uid pageType : String) (pageNum : Int)
    (s : ReadingHookState) (hsid : sid.isEmpty = false) (huid : uid.isEmpty = false)
    (hstarted : s.sessionStarted = true)
    (hend : pageType = "good" ∨ pageType = "bad") :
    trackPageView (some sid) (some uid) pageNum pageType s =
      ({ s with sessionStarted := false },
       [.trackStoryPageView sid pageNum pageType,
        .trackReadingStoryFinish sid uid s.storyTitleRef]) ∧
    trackStoryFinish (some sid) (some uid) { s with sessionStarted := false } =
      ({ s with sessionStarted := false }, []) ∧
    (∀ (storyId userId : Option String) (n : Int) (pt : String) (s2 : ReadingHookState),
      pt ≠ "good" → pt ≠ "bad" →
        countFinishCalls (trackPageView storyId userId n pt s2).2 = 0 ∧
        (trackPageView storyId userId n pt s2).1 = s2) := by
  refine ⟨?_, ?_, ?_⟩
  · rcases hend with h | h <;> subst h <;>
      simp [trackPageView, truthyStr, hsid, huid, hstarted]
  · simp [trackStoryFinish]
  · intro storyId userId n pt s2 hg hb
    match storyId with
    | none => simp [trackPageView, truthyStr, countFinishCalls]
    | some sid2 =>
        by_cases he : sid2.isEmpty <;>
          simp [trackPageView, truthyStr, he, hg, hb, countFinishCalls]

/-- Witness for the amended C9 at concrete inputs. -/
theorem trackPageView_ending_finishes_session_witness :
    ("story1" : String).isEmpty = false ∧ ("user1" : String).isEmpty = false ∧
    (⟨true, some ("T")⟩ : ReadingHookState).sessionStarted = true ∧
    (("good" : String) = "good" ∨ ("good" : String) = "bad") ∧
    (trackPageView (some ("story1")) (some ("user1")) 7 ("good") ⟨true, some ("T")⟩ =
      ({ (⟨true, some ("T")⟩ : ReadingHookState) with sessionStarted := false },
       [.trackStoryPageView ("story1") 7 ("good"),
        .trackReadingStoryFinish ("story1") ("user1")
          ((⟨true, some ("T")⟩ : ReadingHookState).storyTitleRef)]) ∧
     trackStoryFinish (some ("story1")) (some ("user1"))
        { (⟨true, some ("T")⟩ : ReadingHookState) with sessionStarted := false } =
       ({ (⟨true, some ("T")⟩ : ReadingHookState) with sessionStarted := false }, []) ∧
     (∀ (storyId userId : Option String) (n : Int) (pt : String) (s2 : ReadingHookState),
       pt ≠ "good" → pt ≠ "bad" →
         countFinishCalls (trackPageView storyId userId n pt s2).2 = 0 ∧
         (trackPageView storyId userId n pt s2).1 = s2)) :=
  ⟨rfl, rfl, rfl, Or.inl rfl,
   trackPageView_ending_finishes_session ("story1") ("user1") ("good") 7
     ⟨true, some ("T")⟩ rfl rfl rfl (Or.inl rfl)⟩

/-- C4: at the wrapper level, trackStoryFinish invokes the tracker only when
the sessionStarted flag is set, and with truthy identifiers and the flag set
its first call emits exactly one finish invocation and clears the flag, so
the second call in a row invokes nothing; running the first call against the
spec-modelled tracker emits at most one reading_story_finish event, exactly
one when the session exists, and at the tracker level a second
finishReadingSession in a row emits no event at all. -/
theorem trackStoryFinish_idempotent (sid uid : String) (s : ReadingHookState)
    (st : ServiceState) (now1 : Int)
    (hsid : sid.isEmpty = false) (huid : uid.isEmpty = false)
    (hstarted : s.sessionStarted = true) :
    trackStoryFinish (some sid) (some uid) s =
      ({ s with sessionStarted := false },
       [.trackReadingStoryFinish sid uid s.storyTitleRef]) ∧
    trackStoryFinish (some sid) (some uid) { s with sessionStarted := false } =
      ({ s with sessionStarted := false }, []) ∧
    (∀ (storyId userId : Option String) (s2 : ReadingHookState),
       (trackStoryFinish storyId userId s2).2 ≠ [] → s2.sessionStarted = true) ∧
    countReadingFinish
        (runReadingCalls now1 st (trackStoryFinish (some sid) (some uid) s).2).2 ≤ 1 ∧
    (∀ (st2 : ServiceState) (m1 m2 : Int) (sid2 uid2 : String) (t : Int),
       st2.readingSessions (sid2, uid2) = some ⟨t⟩ →
         (finishReadingSession m1 sid2 uid2 st2).2 =
           [.readingStoryFinish sid2 uid2 (m1 - t)] ∧
         (finishReadingSession m2 sid2 uid2
             (finishReadingSession m1 sid2 uid2 st2).1).2 = []) ∧
    (∀ (st2 : ServiceState) (m1 m2 : Int) (sid2 uid2 : String),
       (finishReadingSession m2 sid2 uid2
           (finishReadingSession m1 sid2 uid2 st2).1).2 = []) := by
  refine ⟨?_, ?_, ?_, ?_, ?_, ?_⟩
  · simp [trackStoryFinish, truthyStr, hsid, huid, hstarted]
  · simp [trackStoryFinish]
  · intro storyId userId s2 hne
    by_contra hns
    have hfalse : s2.sessionStarted = false := by
      cases hss : s2.sessionStarted
      · rfl
      · exact absurd hss hns
    simp [trackStoryFinish, hfalse] at hne
  · simp only [trackStoryFinish, truthyStr, hsid, huid, hstarted]
    simp only [Bool.not_false, Bool.and_self, Bool.and_true, if_true,
      runReadingCalls, runReadingCall]
    cases hlk : st.readingSessions (sid, uid) with
    | none => simp [finishReadingSession, hlk, countReadingFinish, runReadingCalls]
    | some rs => simp [finishReadingSession, hlk, countReadingFinish, runReadingCalls]
  · intro st2 m1 m2 sid2 uid2 t hlk
    constructor
    · simp [finishReadingSession, hlk]
    · simp [finishReadingSession, hlk]
  · intro st2 m1 m2 sid2 uid2
    cases hlk : st2.readingSessions (sid2, uid2) with
    | none => simp [finishReadingSession, hlk]
    | some rs => simp [finishReadingSession, hlk]

/-- Witness for C4 at concrete inputs (session present in the registry). -/
theorem trackStoryFinish_idempotent_witness :
    ("story1" : String).isEmpty = false ∧ ("user1" : String).isEmpty = false ∧
    (⟨true, none⟩ : ReadingHookState).sessionStarted = true ∧
    (trackStoryFinish (some ("story1")) (some ("user1")) ⟨true, none⟩ =
      ({ (⟨true, none⟩ : ReadingHookState) with sessionStarted := false },
       [.trackReadingStoryFinish ("story1") ("user1")
          ((⟨true, none⟩ : ReadingHookState).storyTitleRef)]) ∧
     trackStoryFinish (some ("story1")) (some ("user1"))
        { (⟨true, none⟩ : ReadingHookState) with sessionStarted := false } =
       ({ (⟨true, none⟩ : ReadingHookState) with sessionStarted := false }, []) ∧
     (∀ (storyId userId : Option String) (s2 : ReadingHookState),
        (trackStoryFinish storyId userId s2).2 ≠ [] → s2.sessionStarted = true) ∧
     countReadingFinish
         (runReadingCalls 12 emptyServiceState
           (trackStoryFinish (some ("story1")) (some ("user1")) ⟨true, none⟩).2).2 ≤ 1 ∧
     (∀ (st2 : ServiceState) (m1 m2 : Int) (sid2 uid2 : String) (t : Int),
        st2.readingSessions (sid2, uid2) = some ⟨t⟩ →
          (finishReadingSession m1 sid2 uid2 st2).2 =
            [.readingStoryFinish sid2 uid2 (m1 - t)] ∧
          (finishReadingSession m2 sid2 uid2
              (finishReadingSession m1 sid2 uid2 st2).1).2 = []) ∧
     (∀ (st2 : ServiceState) (m1 m2 : Int) (sid2 uid2 : String),
        (finishReadingSession m2 sid2 uid2
            (finishReadingSession m1 sid2 uid2 st2).1).2 = [])) :=
  ⟨rfl, rfl, rfl,
   trackStoryFinish_idempotent ("story1") ("user1") ⟨true, none⟩ emptyServiceState 12
     rfl rfl rfl⟩

/-- C1: for every (userId, kidId) pair, startCreationSession followed by
completeCreationSession - with the title, text and image cost buckets
optionally supplied in between - emits story_creation_complete with a
non-negative duration and story_creation_cost whose total equals the sum of
the three buckets, each defaulting to zero when no cost was supplied. -/
theorem creationSession_cost_total (userId kidId storyId : String) (now1 now2 : Int)
    (tc tx ic : Option Rat) (st0 : ServiceState) (h : now1 ≤ now2) :
    (completeCreationSession now2 storyId userId kidId
        (addImageGenerationCost userId kidId ic
          (addTextGenerationCost userId kidId tx
            (addTitleGenerationCost userId kidId tc
              (startCreationSession now1 userId kidId st0).1)))).2 =
      [.storyCreationComplete storyId userId kidId (now2 - now1),
       .storyCreationCost userId kidId (tc.getD 0) (tx.getD 0) (ic.getD 0)
         (tc.getD 0 + tx.getD 0 + ic.getD 0)] ∧
    0 ≤ now2 - now1 := by
  constructor
  · simp [startCreationSession, addTitleGenerationCost, addTextGenerationCost,
          addImageGenerationCost, completeCreationSession]
  · omega

/-- Witness for C1 at concrete identifiers, times and costs. -/
theorem creationSession_cost_total_witness :
    (5 : Int) ≤ 9 ∧
    ((completeCreationSession 9 ("s1") ("u1") ("k1")
        (addImageGenerationCost ("u1") ("k1") (some 2)
          (addTextGenerationCost ("u1") ("k1") none
            (addTitleGenerationCost ("u1") ("k1") (some 3)
              (startCreationSession 5 ("u1") ("k1") emptyServiceState).1)))).2 =
      [.storyCreationComplete ("s1") ("u1") ("k1") ((9 : Int) - 5),
       .storyCreationCost ("u1") ("k1") ((some (3 : Rat)).getD 0)
         ((none : Option Rat).getD 0) ((some (2 : Rat)).getD 0)
         ((some (3 : Rat)).getD 0 + (none : Option Rat).getD 0 +
           (some (2 : Rat)).getD 0)] ∧
     0 ≤ (9 : Int) - 5) :=
  ⟨by decide,
   creationSession_cost_total ("u1") ("k1") ("s1") 5 9 (some 3) none (some 2)
     emptyServiceState (by decide)⟩

/-- C2: completeCreationSession for a key with no prior startCreationSession
does not fail (the operation is total) and emits story_creation_complete with
duration_ms = 0, together with an all-zero cost breakdown. -/
theorem completeCreationSession_missing_session (storyId userId kidId : String)
    (now : Int) (st : ServiceState)
    (h : st.creationSessions (userId, kidId) = none) :
    (completeCreationSession now storyId userId kidId st).2 =
      [.storyCreationComplete storyId userId kidId 0,
       .storyCreationCost userId kidId 0 0 0 0] := by
  simp [completeCreationSession, h]

/-- Witness for C2 on the empty registry. -/
theorem completeCreationSession_missing_session_witness :
    emptyServiceState.creationSessions (("u1"), ("k1")) = none ∧
    (completeCreationSession 42 ("s1") ("u1") ("k1") emptyServiceState).2 =
      [.storyCreationComplete ("s1") ("u1") ("k1") 0,
       .storyCreationCost ("u1") ("k1") 0 0 0 0] :=
  ⟨rfl, completeCreationSession_missing_session ("s1") ("u1") ("k1") 42
    emptyServiceState rfl⟩

/-- A string has isEmpty false exactly when it is not the empty string. -/
theorem isEmpty_false_iff (s : String) : s.isEmpty = false ↔ s ≠ "" := by
  constructor
  · intro h hs
    subst hs
    exact absurd h (by decide)
  · intro h
    cases he : s.isEmpty
    · rfl
    · exact absurd ((String.isEmpty_iff s).mp he) h

/-- truthyStr on a present string holds exactly for nonempty strings. -/
theorem truthyStr_some_iff (s : String) : truthyStr (some s) = true ↔ s ≠ "" := by
  simp [truthyStr, isEmpty_false_iff]

/-- C7 counterexample: the effect guards with JavaScript truthiness, so a
present-but-empty uid does not fetch although the claim says a present uid
does, and a stored timestamp of 0 fetches unconditionally although the claim
makes fetching depend on the elapsed time. -/
theorem shouldFetchKids_truthiness_divergence :
    shouldFetchKids (some ("")) none 1000 = false ∧
    claimShouldFetchKids (some ("")) none 1000 = true ∧
    shouldFetchKids (some ("u1")) (some 0) 1000 = true ∧
    claimShouldFetchKids (some ("u1")) (some 0) 1000 = false := by
  refine ⟨rfl, rfl, rfl, ?_⟩
  decide

/-- C7 amended: on every effect run, fetchKids is invoked exactly when
userData.uid is present and non-empty and the stored last-fetch timestamp is
absent, or equal to 0, or more than 5 * 60 * 1000 ms old; otherwise the
cached kids data is left untouched. -/
theorem useUserDataEffect_fetchKids_iff (fb up fetching : Bool)
    (userDataUid : Option String) (kidsLastFetched : Option Int) (now : Int) :
    (useUserDataEffect fb up fetching userDataUid kidsLastFetched now).2 = true ↔
      ((∃ s, userDataUid = some s ∧ s ≠ "") ∧
       (kidsLastFetched = none ∨ kidsLastFetched = some 0 ∨
        ∃ t, kidsLastFetched = some t ∧ 5 * 60 * 1000 < now - t)) := by
  cases userDataUid with
  | none => simp [useUserDataEffect, shouldFetchKids, truthyStr]
  | some u =>
      cases kidsLastFetched with
      | none =>
          simp [useUserDataEffect, shouldFetchKids, truthyStr, isEmpty_false_iff]
      | some t =>
          simp [useUserDataEffect, shouldFetchKids, truthyStr, isEmpty_false_iff]

/-- C8: the environment indicator maps NODE_ENV = production to the
production-suffixed collection names and every other value of NODE_ENV,
including unset, to the development-suffixed ones. -/
theorem firebaseEnv_selects_by_suffix (v : Option String)
    (h : v ≠ some ("production")) :
    firebaseCollections (some ("production")) =
      [("accounts_production"), ("users_production"), ("stories_gen_production")] ∧
    firebaseCollections v =
      [("accounts_development"), ("users_development"), ("stories_gen_development")] := by
  constructor
  · rfl
  · cases v with
    | none => rfl
    | some s =>
        have hs : s ≠ "production" := fun hh => h (by rw [hh])
        by_cases he : s.isEmpty
        · simp [firebaseCollections, firebaseEnv, nodeEnvValue, he]
        · simp [firebaseCollections, firebaseEnv, nodeEnvValue, he, hs]

/-- Witness for C8 at a concrete non-production NODE_ENV value. -/
theorem firebaseEnv_selects_by_suffix_witness :
    (some ("staging") : Option String) ≠ some ("production") ∧
    (firebaseCollections (some ("production")) =
      [("accounts_production"), ("users_production"), ("stories_gen_production")] ∧
     firebaseCollections (some ("staging")) =
      [("accounts_development"), ("users_development"), ("stories_gen_development")]) :=
  ⟨by decide, firebaseEnv_selects_by_suffix (some ("staging")) (by decide)⟩

/-- C10: submitting the quick-generate dialog with an empty or whitespace-only
problem description shows the destructive input-required toast and returns at
once - the generation API is not called, the dialog stays open, the
generating flag keeps its value and all three input fields keep theirs. -/
theorem handleSubmit_requires_problem (userId kidId environment : String)
    (st : DialogState) (apiOutcome : Except String GenerateResult)
    (h : (jsTrim st.problem).isEmpty = true) :
    handleSubmit userId kidId environment st apiOutcome =
      (st, [.toastDestructive ("inputRequired")]) := by
  simp [handleSubmit, h]

/-- Witness for C10 on a whitespace-only problem field. -/
theorem handleSubmit_requires_problem_witness :
    ((jsTrim (⟨"   ", "a", "d", true, false⟩ : DialogState).problem).isEmpty = true) ∧
    handleSubmit ("u1") ("k1") ("development") ⟨"   ", "a", "d", true, false⟩
        (Except.error ("boom")) =
      (⟨"   ", "a", "d", true, false⟩, [.toastDestructive ("inputRequired")]) :=
  ⟨by decide,
   handleSubmit_requires_problem ("u1") ("k1") ("development")
     ⟨"   ", "a", "d", true, false⟩ (Except.error ("boom")) (by decide)⟩

end ChoiceStory
